import Mathlib

/-!
Verification of the repository layer of the `coleccion_musical_backend`
service (`src/config/database.js`).

The store is modelled as an explicit state: a list of artist rows, a list of
album rows, the next system-assigned identifiers, and a flag saying whether a
connection can be acquired from the pool.  Each repository operation is a pure
function from the state and its arguments to a triple
`(result, new state, event trace)`, where the trace records the connection
events (`acquire`, `query`, `release`) the JavaScript function performs, in
order, on that execution path.  JavaScript's loosely-typed update inputs are
modelled by `JsVal`, so that `typeof x === 'string'` and `Number.isInteger(x)`
checks translate faithfully.
-/

/-- A row of the `artista` table. -/
structure Artista where
  id_artista : Int
  nombre : String
  genero_musica : String
deriving DecidableEq, Repr

/-- A row of the `albumes` table. -/
structure Album where
  id_album : Int
  titulo_album : String
  anio_album : Int
  id_artista : Int
deriving DecidableEq, Repr

/-- The store state: table contents, next system-assigned identifiers, and
whether the pool can hand out a connection. -/
structure Db where
  artistas : List Artista
  albumes : List Album
  nextArtistaId : Int
  nextAlbumId : Int
  up : Bool
deriving DecidableEq, Repr

/-- A JavaScript value as it reaches an update operation's input bag:
`undefined`, `null`, a string, an integral number, a non-integral number, or a
boolean.  `typeof v === 'string'` holds exactly for `str`, and
`Number.isInteger(v)` holds exactly for `int`. -/
inductive JsVal where
  | undefined
  | nullv
  | str (s : String)
  | int (n : Int)
  | float
  | boolv (b : Bool)
deriving DecidableEq, Repr

/-- `typeof v === 'string'`. -/
def JsVal.isString : JsVal → Bool
  | .str _ => true
  | _ => false

/-- The string carried by a `JsVal`, when `typeof v === 'string'`. -/
def jsStr : JsVal → Option String
  | .str s => some s
  | _ => none

/-- `Number.isInteger(v)`. -/
def JsVal.isIntegerNum : JsVal → Bool
  | .int _ => true
  | _ => false

/-- A JavaScript `Error` as the repository throws it: a message and an
optional `code` property.  Errors without a `code` are untyped. -/
structure Err where
  message : String
  code : Option String
deriving DecidableEq, Repr

/-- Connection events a repository operation performs, in order. -/
inductive Ev where
  | acquire
  | query
  | release
deriving DecidableEq, Repr

/-- Message of the error thrown when `pool.connect()` fails. -/
def connectErrMsg : String := "Connection terminated unexpectedly"

/-- The error surfaced when the pool cannot hand out a connection and the
operation rethrows it unchanged (no `code` property). -/
def connectErr : Err := ⟨connectErrMsg, none⟩

/-- `new Error('No update fields provided')`: no `code` property. -/
def noFieldsErr : Err := ⟨"No update fields provided", none⟩

/-- The typed duplicate-title error (`error.code = 'ALBUM_TITLE_EXISTS'`). -/
def duplicateTitleErr : Err := ⟨"Album title already exists", some "ALBUM_TITLE_EXISTS"⟩

/-- The typed missing-artist error (`error.code = 'ARTISTA_NOT_FOUND'`),
remapped from the store's foreign-key violation (code `23503`). -/
def artistaNotFoundErr : Err := ⟨"Specified artista does not exist", some "ARTISTA_NOT_FOUND"⟩

/-- The typed duplicate-name error (`error.code = 'ARTISTA_DUPLICATE_NAME'`),
remapped in `updateArtista` from the store's unique violation (code `23505`). -/
def duplicateNameErr : Err := ⟨"Artist name already exists", some "ARTISTA_DUPLICATE_NAME"⟩

/-- Message of the store's unique-constraint rejection (code `23505`). -/
def uniqueViolationMsg : String := "duplicate key value violates unique constraint"

/-- SQL `LOWER(...)`: character-wise lowercasing. -/
def sqlLower (s : String) : String := ⟨s.data.map Char.toLower⟩

/-- `LOWER(titulo_album) = LOWER($1)` over the whole `albumes` table
(the duplicate pre-check of `createAlbum`). -/
def hasDupTitle (db : Db) (titulo : String) : Bool :=
  db.albumes.any fun al => sqlLower al.titulo_album == sqlLower titulo

/-- `LOWER(titulo_album) = LOWER($1) AND id_album <> $2` over the `albumes`
table (the duplicate pre-check of `updateAlbum`, excluding the updated row). -/
def hasDupTitleExcluding (db : Db) (titulo : String) (idAlbum : Int) : Bool :=
  db.albumes.any fun al =>
    sqlLower al.titulo_album == sqlLower titulo && al.id_album != idAlbum

/-- Whether the `albumes.id_artista` foreign key would be satisfied. -/
def artistaExists (db : Db) (idArtista : Int) : Bool :=
  db.artistas.any fun a => a.id_artista == idArtista

/-- Modelled from the spec: the store-level uniqueness constraint on artist
names.  The database schema is not part of the source tree; the spec (§3
invariant, §4.1, §8 scenario) states that no two artists share a name under
case-insensitive comparison and that `updateArtista`'s `23505` remap
corresponds to this constraint. -/
def artistaNameTaken (db : Db) (nombre : String) : Bool :=
  db.artistas.any fun a => sqlLower a.nombre == sqlLower nombre

/-- Modelled from the spec: the same store constraint as seen by an `UPDATE`
setting `nombre`, which violates uniqueness exactly when a different artist
row already carries the name (case-insensitively). -/
def artistaNameTakenExcluding (db : Db) (nombre : String) (idArtista : Int) : Bool :=
  db.artistas.any fun a =>
    sqlLower a.nombre == sqlLower nombre && a.id_artista != idArtista

/-- `testDatabaseConnection()`: acquires a connection, runs one probe query,
releases.  Failures are wrapped in a fresh untyped error. -/
def testDatabaseConnection (db : Db) : Except Err Unit × Db × List Ev :=
  if db.up = false then
    (.error ⟨"Database connection failed: " ++ connectErrMsg, none⟩, db, [])
  else
    (.ok (), db, [.acquire, .query, .release])

/-- One output row of `getColeccionMusical`: the artist columns together with
the aggregated album list (`COALESCE(json_agg(...), '[]')`). -/
structure ColeccionEntry where
  id_artista : Int
  nombre : String
  genero_musica : String
  albumes : List Album
deriving DecidableEq, Repr

/-- Row order of `ORDER BY a.nombre`. -/
def nombreLe (a b : Artista) : Prop := a.nombre ≤ b.nombre

instance : DecidableRel nombreLe := fun a b => by
  unfold nombreLe; infer_instance

instance : IsTotal Artista nombreLe := ⟨fun a b => le_total a.nombre b.nombre⟩

instance : IsTrans Artista nombreLe := ⟨fun _ _ _ h h2 => le_trans h h2⟩

/-- Row order of `ORDER BY titulo_album`. -/
def tituloLe (a b : Album) : Prop := a.titulo_album ≤ b.titulo_album

instance : DecidableRel tituloLe := fun a b => by
  unfold tituloLe; infer_instance

/-- The rows produced by the aggregate query of `getColeccionMusical`:
`LEFT JOIN` of `albumes` onto `artista` (artist-preserving), grouped by
artist, albums aggregated into a list that `COALESCE` turns into `[]` when
the artist has none, ordered by artist name ascending. -/
def coleccionRows (db : Db) : List ColeccionEntry :=
  (db.artistas.insertionSort nombreLe).map fun a =>
    ⟨a.id_artista, a.nombre, a.genero_musica,
      db.albumes.filter fun al => al.id_artista == a.id_artista⟩

/-- `getColeccionMusical()`. -/
def getColeccionMusical (db : Db) : Except Err (List ColeccionEntry) × Db × List Ev :=
  if db.up = false then
    (.error ⟨"Failed to fetch musical collection: " ++ connectErrMsg, none⟩, db, [])
  else
    (.ok (coleccionRows db), db, [.acquire, .query, .release])

/-- `getArtistas()`: all artists ordered by name. -/
def getArtistas (db : Db) : Except Err (List Artista) × Db × List Ev :=
  if db.up = false then
    (.error ⟨"Failed to fetch artistas: " ++ connectErrMsg, none⟩, db, [])
  else
    (.ok (db.artistas.insertionSort nombreLe), db, [.acquire, .query, .release])

/-- `findArtistaPorNombre(nombre)`: case-insensitive match, `LIMIT 1`,
`rows[0] || null`. -/
def findArtistaPorNombre (db : Db) (nombre : String) :
    Except Err (Option Artista) × Db × List Ev :=
  if db.up = false then
    (.error ⟨"Failed to find artista by nombre: " ++ connectErrMsg, none⟩, db, [])
  else
    (.ok ((db.artistas.filter fun a => sqlLower a.nombre == sqlLower nombre).head?),
      db, [.acquire, .query, .release])

/-- `getAlbumes()`: all albums ordered by title. -/
def getAlbumes (db : Db) : Except Err (List Album) × Db × List Ev :=
  if db.up = false then
    (.error ⟨"Failed to fetch albumes: " ++ connectErrMsg, none⟩, db, [])
  else
    (.ok (db.albumes.insertionSort tituloLe), db, [.acquire, .query, .release])

/-- `getAlbumesPorArtista(idArtista)`: the artist's albums ordered by title. -/
def getAlbumesPorArtista (db : Db) (idArtista : Int) :
    Except Err (List Album) × Db × List Ev :=
  if db.up = false then
    (.error ⟨"Failed to fetch albumes for artista: " ++ connectErrMsg, none⟩, db, [])
  else
    (.ok ((db.albumes.filter fun al => al.id_artista == idArtista).insertionSort tituloLe),
      db, [.acquire, .query, .release])

/-- `createArtista({nombre, genero_musica})`.  The catch block wraps every
failure — the connect failure and the store's unique-constraint rejection
(modelled from the spec, see `artistaNameTaken`) alike — into a fresh
`Error('Failed to create artista: ...')` carrying no `code` property. -/
def createArtista (db : Db) (nombre genero_musica : String) :
    Except Err Artista × Db × List Ev :=
  if db.up = false then
    (.error ⟨"Failed to create artista: " ++ connectErrMsg, none⟩, db, [])
  else if artistaNameTaken db nombre then
    (.error ⟨"Failed to create artista: " ++ uniqueViolationMsg, none⟩, db,
      [.acquire, .query, .release])
  else
    let a : Artista := ⟨db.nextArtistaId, nombre, genero_musica⟩
    (.ok a,
      { db with artistas := db.artistas ++ [a], nextArtistaId := db.nextArtistaId + 1 },
      [.acquire, .query, .release])

/-- A field pushed onto `updateArtista`'s `fields`/`values` arrays. -/
inductive ArtistaField where
  | nombre (s : String)
  | genero (s : String)
deriving DecidableEq, Repr

/-- The `fields` array `updateArtista` builds: `nombre` when
`typeof nombre === 'string'`, then `genero_musica` when
`typeof genero_musica === 'string'`. -/
def artistaUpdateFields (nombre genero_musica : JsVal) : List ArtistaField :=
  (match nombre with
    | .str s => [ArtistaField.nombre s]
    | _ => []) ++
  (match genero_musica with
    | .str s => [ArtistaField.genero s]
    | _ => [])

/-- `SET` application of the collected artist fields to a matched row. -/
def applyArtistaFields (a : Artista) : List ArtistaField → Artista
  | [] => a
  | .nombre s :: rest => applyArtistaFields { a with nombre := s } rest
  | .genero s :: rest => applyArtistaFields { a with genero_musica := s } rest

/-- Whether the `UPDATE artista` statement trips the store's unique constraint
on names (modelled from the spec, see `artistaNameTakenExcluding`): some field
sets `nombre` to a name a different artist row already carries. -/
def artistaUpdateConflict (db : Db) (idArtista : Int) (fields : List ArtistaField) : Bool :=
  fields.any fun f =>
    match f with
    | .nombre s => artistaNameTakenExcluding db s idArtista
    | .genero _ => false

/-- `updateArtista(idArtista, {nombre, genero_musica})`.  The connection is
acquired first; the `fields` array is built from the string-typed inputs; an
empty array throws `No update fields provided`; otherwise the `UPDATE ...
RETURNING` statement runs, returning `rows[0] || null`, with a `23505`
unique violation remapped to `ARTISTA_DUPLICATE_NAME`. -/
def updateArtista (db : Db) (idArtista : Int) (nombre genero_musica : JsVal) :
    Except Err (Option Artista) × Db × List Ev :=
  if db.up = false then (.error connectErr, db, [])
  else
    let fields := artistaUpdateFields nombre genero_musica
    if fields.isEmpty then (.error noFieldsErr, db, [.acquire, .release])
    else if db.artistas.all (fun a => a.id_artista != idArtista) then
      (.ok none, db, [.acquire, .query, .release])
    else if artistaUpdateConflict db idArtista fields then
      (.error duplicateNameErr, db, [.acquire, .query, .release])
    else
      let newArtistas := db.artistas.map fun a =>
        if a.id_artista == idArtista then applyArtistaFields a fields else a
      (.ok ((newArtistas.filter fun a => a.id_artista == idArtista).head?),
        { db with artistas := newArtistas }, [.acquire, .query, .release])

/-- `createAlbum({titulo_album, anio_album, id_artista})`: case-insensitive
duplicate-title pre-check first (failing with `ALBUM_TITLE_EXISTS` before any
insert), then the insert, whose foreign-key violation (`23503`) is remapped
to `ARTISTA_NOT_FOUND`. -/
def createAlbum (db : Db) (titulo_album : String) (anio_album id_artista : Int) :
    Except Err Album × Db × List Ev :=
  if db.up = false then (.error connectErr, db, [])
  else if hasDupTitle db titulo_album then
    (.error duplicateTitleErr, db, [.acquire, .query, .release])
  else if artistaExists db id_artista = false then
    (.error artistaNotFoundErr, db, [.acquire, .query, .query, .release])
  else
    let al : Album := ⟨db.nextAlbumId, titulo_album, anio_album, id_artista⟩
    (.ok al,
      { db with albumes := db.albumes ++ [al], nextAlbumId := db.nextAlbumId + 1 },
      [.acquire, .query, .query, .release])

/-- A field pushed onto `updateAlbum`'s `fields`/`values` arrays. -/
inductive AlbumField where
  | titulo (s : String)
  | anio (n : Int)
  | artista (n : Int)
deriving DecidableEq, Repr

/-- The `fields` array `updateAlbum` builds: `titulo_album` when
`typeof titulo_album === 'string'`, `anio_album` when
`Number.isInteger(anio_album)`, `id_artista` when
`Number.isInteger(id_artista)`; any other value is skipped. -/
def albumUpdateFields (titulo_album anio_album id_artista : JsVal) : List AlbumField :=
  (match titulo_album with
    | .str s => [AlbumField.titulo s]
    | _ => []) ++
  (match anio_album with
    | .int n => [AlbumField.anio n]
    | _ => []) ++
  (match id_artista with
    | .int n => [AlbumField.artista n]
    | _ => [])

/-- `SET` application of the collected album fields to a matched row. -/
def applyAlbumFields (al : Album) : List AlbumField → Album
  | [] => al
  | .titulo s :: rest => applyAlbumFields { al with titulo_album := s } rest
  | .anio n :: rest => applyAlbumFields { al with anio_album := n } rest
  | .artista n :: rest => applyAlbumFields { al with id_artista := n } rest

/-- Whether the `UPDATE albumes` statement trips the foreign key: some field
sets `id_artista` to an identifier no artist row carries. -/
def albumUpdateFkViolation (db : Db) (fields : List AlbumField) : Bool :=
  fields.any fun f =>
    match f with
    | .artista n => artistaExists db n = false
    | _ => false

/-- The tail of `updateAlbum` after the optional duplicate-title pre-check:
the empty-`fields` throw, then the `UPDATE ... RETURNING` statement
(`null` when no row matched, `23503` remapped to `ARTISTA_NOT_FOUND`).
`dupQueried` records whether the pre-check query ran, for the trace. -/
def updateAlbumRun (db : Db) (idAlbum : Int) (fields : List AlbumField)
    (dupQueried : Bool) : Except Err (Option Album) × Db × List Ev :=
  let pre : List Ev := if dupQueried then [.acquire, .query] else [.acquire]
  if fields.isEmpty then (.error noFieldsErr, db, pre ++ [.release])
  else if db.albumes.all (fun al => al.id_album != idAlbum) then
    (.ok none, db, pre ++ [.query, .release])
  else if albumUpdateFkViolation db fields then
    (.error artistaNotFoundErr, db, pre ++ [.query, .release])
  else
    let newAlbumes := db.albumes.map fun al =>
      if al.id_album == idAlbum then applyAlbumFields al fields else al
    (.ok ((newAlbumes.filter fun al => al.id_album == idAlbum).head?),
      { db with albumes := newAlbumes }, pre ++ [.query, .release])

/-- `updateAlbum(idAlbum, {titulo_album, anio_album, id_artista})`.  When a
string title is supplied, the duplicate check (excluding the updated album)
runs first, before any other validation, throwing `ALBUM_TITLE_EXISTS` on
collision; then `updateAlbumRun` finishes the operation. -/
def updateAlbum (db : Db) (idAlbum : Int) (titulo_album anio_album id_artista : JsVal) :
    Except Err (Option Album) × Db × List Ev :=
  if db.up = false then (.error connectErr, db, [])
  else
    match jsStr titulo_album with
    | some s =>
      if hasDupTitleExcluding db s idAlbum then
        (.error duplicateTitleErr, db, [.acquire, .query, .release])
      else
        updateAlbumRun db idAlbum (albumUpdateFields titulo_album anio_album id_artista) true
    | none => updateAlbumRun db idAlbum (albumUpdateFields titulo_album anio_album id_artista) false

/-- A well-scoped connection trace: either no connection was acquired, or
exactly one was acquired first, only queries ran on it, and it was released
exactly once, as the last action before returning. -/
def queriesThenRelease : List Ev → Bool
  | [Ev.release] => true
  | Ev.query :: rest => queriesThenRelease rest
  | _ => false

/-- See `queriesThenRelease`. -/
def traceOk : List Ev → Bool
  | [] => true
  | Ev.acquire :: rest => queriesThenRelease rest
  | _ => false

/-- A sample store: artist `Ana` (id 1) owns the album `Blue` (id 1). -/
def dbSample : Db := ⟨[⟨1, "Ana", "Jazz"⟩], [⟨1, "Blue", 1959, 1⟩], 2, 2, true⟩

/-- A sample empty, available store. -/
def dbEmpty : Db := ⟨[], [], 1, 1, true⟩

/-- A sample store with a second, album-less artist `Bob` (id 2). -/
def dbTwo : Db :=
  ⟨[⟨2, "Bob", "Rock"⟩, ⟨1, "Ana", "Jazz"⟩], [⟨1, "Blue", 1959, 1⟩], 3, 2, true⟩

/-! ### Shared lemmas -/

theorem jsStr_eq_none (v : JsVal) (h : v.isString = false) : jsStr v = none := by
  cases v <;> simp_all [JsVal.isString, jsStr]

theorem artistaUpdateFields_nil (nombre genero : JsVal)
    (hn : nombre.isString = false) (hg : genero.isString = false) :
    artistaUpdateFields nombre genero = [] := by
  cases nombre <;> cases genero <;>
    simp_all [JsVal.isString, artistaUpdateFields]

theorem albumUpdateFields_nil (titulo anio art : JsVal)
    (ht : titulo.isString = false) (ha : anio.isIntegerNum = false)
    (hi : art.isIntegerNum = false) :
    albumUpdateFields titulo anio art = [] := by
  cases titulo <;> cases anio <;> cases art <;>
    simp_all [JsVal.isString, JsVal.isIntegerNum, albumUpdateFields]

theorem albumUpdateFields_skip (titulo anio art : JsVal)
    (ha : anio.isIntegerNum = false) (hi : art.isIntegerNum = false) :
    albumUpdateFields titulo anio art = albumUpdateFields titulo .undefined .undefined := by
  cases anio <;> cases art <;>
    simp_all [JsVal.isIntegerNum, albumUpdateFields]

theorem updateAlbumRun_ne_dup (db : Db) (idAlbum : Int) (fields : List AlbumField)
    (b : Bool) : (updateAlbumRun db idAlbum fields b).1 ≠ .error duplicateTitleErr := by
  unfold updateAlbumRun
  repeat' split
  all_goals simp [noFieldsErr, duplicateTitleErr, artistaNotFoundErr]

theorem updateArtista_noFields (db : Db) (idArtista : Int) (nombre genero : JsVal)
    (hup : db.up = true) (hn : nombre.isString = false) (hg : genero.isString = false) :
    updateArtista db idArtista nombre genero =
      (.error noFieldsErr, db, [.acquire, .release]) := by
  have hf := artistaUpdateFields_nil nombre genero hn hg
  simp [updateArtista, hup, hf]

theorem updateAlbum_noFields (db : Db) (idAlbum : Int) (titulo anio art : JsVal)
    (hup : db.up = true) (ht : titulo.isString = false)
    (ha : anio.isIntegerNum = false) (hi : art.isIntegerNum = false) :
    updateAlbum db idAlbum titulo anio art =
      (.error noFieldsErr, db, [.acquire, .release]) := by
  have hf := albumUpdateFields_nil titulo anio art ht ha hi
  have hjs := jsStr_eq_none titulo ht
  simp [updateAlbum, hup, hjs, updateAlbumRun, hf]

theorem updateAlbumRun_not_found (db : Db) (idAlbum : Int) (fields : List AlbumField)
    (b : Bool) (hf : fields ≠ [])
    (hmiss : (db.albumes.all fun al => al.id_album != idAlbum) = true) :
    updateAlbumRun db idAlbum fields b =
      (.ok none, db, (if b then [.acquire, .query] else [.acquire]) ++ [.query, .release]) := by
  simp [updateAlbumRun, hf, hmiss]

/-! ### Claims -/

/-- C1: `createAlbum` with a title equal, case-insensitively, to an existing
album's title fails with the `ALBUM_TITLE_EXISTS` duplicate error and attempts
no insert (store unchanged; only the pre-check query ran).  `updateAlbum`
given a string title performs the same check against all albums except the one
being updated: it fails with `ALBUM_TITLE_EXISTS` exactly when a different row
collides, and never produces that error when the check excluding the updated
row finds no collision. -/
theorem C1_duplicate_title_check (db : Db) (hup : db.up = true) :
    (∀ titulo anio idA, hasDupTitle db titulo = true →
      createAlbum db titulo anio idA =
        (.error duplicateTitleErr, db, [.acquire, .query, .release])) ∧
    (∀ idAlbum s anio art, hasDupTitleExcluding db s idAlbum = true →
      updateAlbum db idAlbum (.str s) anio art =
        (.error duplicateTitleErr, db, [.acquire, .query, .release])) ∧
    (∀ idAlbum s anio art, hasDupTitleExcluding db s idAlbum = false →
      (updateAlbum db idAlbum (.str s) anio art).1 ≠ .error duplicateTitleErr) := by
  refine ⟨?_, ?_, ?_⟩
  · intro titulo anio idA h
    simp [createAlbum, hup, h]
  · intro idAlbum s anio art h
    simp [updateAlbum, hup, jsStr, h]
  · intro idAlbum s anio art h
    have heq : updateAlbum db idAlbum (.str s) anio art =
        updateAlbumRun db idAlbum (albumUpdateFields (.str s) anio art) true := by
      simp [updateAlbum, hup, jsStr, h]
    rw [heq]
    exact updateAlbumRun_ne_dup _ _ _ _

/-- C1 witness: in `dbSample`, creating `"BLUE"` and retitling album 99 to
`"blue"` both collide with the stored `"Blue"`. -/
theorem C1_witness :
    createAlbum dbSample "BLUE" 2000 1 =
      (.error duplicateTitleErr, dbSample, [.acquire, .query, .release]) ∧
    updateAlbum dbSample 99 (.str "blue") .undefined .undefined =
      (.error duplicateTitleErr, dbSample, [.acquire, .query, .release]) :=
  ⟨(C1_duplicate_title_check dbSample rfl).1 "BLUE" 2000 1 (by decide),
   (C1_duplicate_title_check dbSample rfl).2.1 99 "blue" .undefined .undefined (by decide)⟩

/-- C2: `createAlbum` with a fresh title but an artist identifier no artist
row carries fails with `ARTISTA_NOT_FOUND` (remapped from the store's
foreign-key violation on the insert) and leaves the store unchanged. -/
theorem C2_create_album_fk (db : Db) (titulo : String) (anio idA : Int)
    (hup : db.up = true) (hnodup : hasDupTitle db titulo = false)
    (hfk : artistaExists db idA = false) :
    createAlbum db titulo anio idA =
      (.error artistaNotFoundErr, db, [.acquire, .query, .query, .release]) := by
  simp [createAlbum, hup, hnodup, hfk]

/-- C2 witness: artist 7 does not exist in `dbSample`. -/
theorem C2_witness :
    createAlbum dbSample "Kind of Blue" 1959 7 =
      (.error artistaNotFoundErr, dbSample, [.acquire, .query, .query, .release]) :=
  C2_create_album_fk dbSample "Kind of Blue" 1959 7 rfl (by decide) (by decide)

/-- C3: an update of an artist or an album in which no mutable field is
supplied (no string name/genre, no string title, no integral year or artist
id) fails with the `No update fields provided` error, for every identifier,
existing or not, and leaves the store unchanged. -/
theorem C3_no_fields_provided (db : Db) (hup : db.up = true) :
    (∀ idArtista nombre genero, nombre.isString = false → genero.isString = false →
      updateArtista db idArtista nombre genero =
        (.error noFieldsErr, db, [.acquire, .release])) ∧
    (∀ idAlbum titulo anio art, titulo.isString = false →
      anio.isIntegerNum = false → art.isIntegerNum = false →
      updateAlbum db idAlbum titulo anio art =
        (.error noFieldsErr, db, [.acquire, .release])) := by
  exact ⟨fun idArtista nombre genero hn hg =>
      updateArtista_noFields db idArtista nombre genero hup hn hg,
    fun idAlbum titulo anio art ht ha hi =>
      updateAlbum_noFields db idAlbum titulo anio art hup ht ha hi⟩

/-- C3 witness: a zero-field update of nonexistent artist 42 and of existing
album 1, each with non-string / non-integral inputs. -/
theorem C3_witness :
    updateArtista dbSample 42 .undefined .nullv =
      (.error noFieldsErr, dbSample, [.acquire, .release]) ∧
    updateAlbum dbSample 1 .undefined (.boolv true) .float =
      (.error noFieldsErr, dbSample, [.acquire, .release]) :=
  ⟨(C3_no_fields_provided dbSample rfl).1 42 .undefined .nullv (by decide) (by decide),
   (C3_no_fields_provided dbSample rfl).2 1 .undefined (.boolv true) .float
     (by decide) (by decide) (by decide)⟩

/-- C4 counterexample: in `dbSample` no album has identifier 99, and the valid
field set `{titulo_album: "blue"}` is supplied, yet `updateAlbum` raises the
duplicate-title error (the stored `"Blue"` collides) instead of returning the
explicit not-found absence the claim demands. -/
theorem C4_counterexample :
    (updateAlbum dbSample 99 (.str "blue") .undefined .undefined).1 =
      .error duplicateTitleErr := by
  rfl

/-- C4 as amended: an update with at least one valid field supplied and an
identifier that no stored row carries returns the explicit absence `none`
(not an error) and modifies no row — unconditionally for `updateArtista`, and
for `updateAlbum` provided a supplied title does not collide case-insensitively
with a different album (otherwise the duplicate-title error takes precedence,
see C9). -/
theorem C4_update_not_found (db : Db) (hup : db.up = true) :
    (∀ idArtista nombre genero, artistaUpdateFields nombre genero ≠ [] →
      (db.artistas.all fun a => a.id_artista != idArtista) = true →
      updateArtista db idArtista nombre genero =
        (.ok none, db, [.acquire, .query, .release])) ∧
    (∀ idAlbum titulo anio art, albumUpdateFields titulo anio art ≠ [] →
      (db.albumes.all fun al => al.id_album != idAlbum) = true →
      (∀ s, titulo = .str s → hasDupTitleExcluding db s idAlbum = false) →
      (updateAlbum db idAlbum titulo anio art).1 = .ok none ∧
        (updateAlbum db idAlbum titulo anio art).2.1 = db) := by
  constructor
  · intro idArtista nombre genero hf hmiss
    simp [updateArtista, hup, hf, hmiss]
  · intro idAlbum titulo anio art hf hmiss hnodup
    cases htit : jsStr titulo with
    | some s =>
      have hts : titulo = .str s := by
        cases titulo <;> simp_all [jsStr]
      have hnd := hnodup s hts
      have heq : updateAlbum db idAlbum titulo anio art =
          updateAlbumRun db idAlbum (albumUpdateFields titulo anio art) true := by
        simp [updateAlbum, hup, hts, jsStr, hnd]
      rw [heq, updateAlbumRun_not_found db idAlbum _ true hf hmiss]
      exact ⟨rfl, rfl⟩
    | none =>
      have heq : updateAlbum db idAlbum titulo anio art =
          updateAlbumRun db idAlbum (albumUpdateFields titulo anio art) false := by
        simp [updateAlbum, hup, htit]
      rw [heq, updateAlbumRun_not_found db idAlbum _ false hf hmiss]
      exact ⟨rfl, rfl⟩

/-- C4 witness: in `dbSample`, artist 42 and album 42 do not exist; renaming
artist 42 to `"Cam"` and retitling album 42 to `"Red"` (no collision) both
return the explicit absence. -/
theorem C4_witness :
    updateArtista dbSample 42 (.str "Cam") .undefined =
      (.ok none, dbSample, [.acquire, .query, .release]) ∧
    (updateAlbum dbSample 42 (.str "Red") .undefined .undefined).1 = .ok none ∧
      (updateAlbum dbSample 42 (.str "Red") .undefined .undefined).2.1 = dbSample :=
  ⟨(C4_update_not_found dbSample rfl).1 42 (.str "Cam") .undefined
      (by decide) (by decide),
   (C4_update_not_found dbSample rfl).2 42 (.str "Red") .undefined .undefined
      (by decide) (by decide)
      (fun s hs => by cases hs; decide)⟩

/-- C9: when `updateAlbum` is given a title that collides case-insensitively
with another stored album, it fails with the duplicate-title error even when
the updated album identifier itself does not exist: the pre-check runs before
the target row's existence is established, so `ALBUM_TITLE_EXISTS` takes
precedence over the not-found result. -/
theorem C9_dup_title_precedes_not_found (db : Db) (idAlbum : Int) (s : String)
    (anio art : JsVal) (hup : db.up = true)
    (hmiss : (db.albumes.all fun al => al.id_album != idAlbum) = true)
    (hdup : hasDupTitleExcluding db s idAlbum = true) :
    updateAlbum db idAlbum (.str s) anio art =
      (.error duplicateTitleErr, db, [.acquire, .query, .release]) := by
  simp [updateAlbum, hup, jsStr, hdup]

/-- C9 witness: album 99 does not exist in `dbSample`, yet retitling it to
`"BLUE"` fails with the duplicate-title error. -/
theorem C9_witness :
    updateAlbum dbSample 99 (.str "BLUE") .undefined .undefined =
      (.error duplicateTitleErr, dbSample, [.acquire, .query, .release]) :=
  C9_dup_title_precedes_not_found dbSample 99 "BLUE" .undefined .undefined rfl
    (by decide) (by decide)

/-- C10: a supplied year or artist-identifier value that is not an integral
number is silently dropped from the update set — the call behaves exactly as
if those fields were absent — and consequently a call supplying only
non-integral year/artist values (and no string title) fails with the
`No update fields provided` error rather than an invalid-value error. -/
theorem C10_nonint_fields_skipped (db : Db) (idAlbum : Int) (titulo anio art : JsVal)
    (ha : anio.isIntegerNum = false) (hi : art.isIntegerNum = false) :
    updateAlbum db idAlbum titulo anio art =
      updateAlbum db idAlbum titulo .undefined .undefined ∧
    (titulo.isString = false → db.up = true →
      updateAlbum db idAlbum titulo anio art =
        (.error noFieldsErr, db, [.acquire, .release])) := by
  constructor
  · have hsk := albumUpdateFields_skip titulo anio art ha hi
    unfold updateAlbum
    rw [hsk]
  · intro ht hup
    exact updateAlbum_noFields db idAlbum titulo anio art hup ht ha hi

/-- C10 witness: supplying the year as the string `"1960"` and the artist id
as a non-integral number behaves as an absent-field call and fails with the
`No update fields provided` error. -/
theorem C10_witness :
    updateAlbum dbSample 1 .undefined (.str "1960") .float =
      updateAlbum dbSample 1 .undefined .undefined .undefined ∧
    updateAlbum dbSample 1 .undefined (.str "1960") .float =
      (.error noFieldsErr, dbSample, [.acquire, .release]) :=
  ⟨(C10_nonint_fields_skipped dbSample 1 .undefined (.str "1960") .float
      (by decide) (by decide)).1,
   (C10_nonint_fields_skipped dbSample 1 .undefined (.str "1960") .float
      (by decide) (by decide)).2 (by decide) rfl⟩

/-- C5: `getColeccionMusical` returns one entry per artist — artists with zero
albums included, the join being artist-preserving — whose `albumes` field is
exactly the artist's stored albums (hence the empty list, never an absent
value, when the artist has none), ordered by artist name ascending. -/
theorem C5_coleccion_shape (db : Db) (hup : db.up = true) :
    (getColeccionMusical db).1 = .ok (coleccionRows db) ∧
    ((coleccionRows db).map fun e => (e.id_artista, e.nombre, e.genero_musica)).Perm
      (db.artistas.map fun a => (a.id_artista, a.nombre, a.genero_musica)) ∧
    (∀ e ∈ coleccionRows db,
      e.albumes = db.albumes.filter fun al => al.id_artista == e.id_artista) ∧
    (∀ e ∈ coleccionRows db,
      (db.albumes.all fun al => al.id_artista != e.id_artista) = true →
        e.albumes = []) ∧
    List.Sorted (· ≤ ·) ((coleccionRows db).map fun e => e.nombre) := by
  have hfilter : ∀ e ∈ coleccionRows db,
      e.albumes = db.albumes.filter fun al => al.id_artista == e.id_artista := by
    intro e he
    rw [coleccionRows] at he
    obtain ⟨a, _, rfl⟩ := List.mem_map.mp he
    rfl
  refine ⟨by simp [getColeccionMusical, hup], ?_, hfilter, ?_, ?_⟩
  · rw [coleccionRows, List.map_map]
    exact (List.perm_insertionSort nombreLe db.artistas).map _
  · intro e he hall
    rw [hfilter e he, List.filter_eq_nil_iff]
    intro al hal
    have h2 := List.all_eq_true.mp hall al hal
    simpa using h2
  · rw [coleccionRows, List.map_map]
    exact List.Pairwise.map _ (fun a b h => h)
      (List.sorted_insertionSort nombreLe db.artistas)

/-- C5 witness: in `dbTwo` the artist `Bob` (stored first) has no albums; the
collection still contains both artists, `Bob` with an empty album list, in
name order `Ana`, `Bob`. -/
theorem C5_witness :
    (getColeccionMusical dbTwo).1 = .ok (coleccionRows dbTwo) ∧
    ((coleccionRows dbTwo).map fun e => (e.id_artista, e.nombre, e.genero_musica)).Perm
      (dbTwo.artistas.map fun a => (a.id_artista, a.nombre, a.genero_musica)) ∧
    (∀ e ∈ coleccionRows dbTwo,
      e.albumes = dbTwo.albumes.filter fun al => al.id_artista == e.id_artista) ∧
    (∀ e ∈ coleccionRows dbTwo,
      (dbTwo.albumes.all fun al => al.id_artista != e.id_artista) = true →
        e.albumes = []) ∧
    List.Sorted (· ≤ ·) ((coleccionRows dbTwo).map fun e => e.nombre) :=
  C5_coleccion_shape dbTwo rfl

/-- C6 counterexample: `dbSample` stores the artist `"Ana"`; creating
`("ana", "Rock")` does not fail with a typed duplicate-name error — the store
rejection (modelled from the spec, see `artistaNameTaken`) is wrapped into a
generic error whose `code` is absent, exactly the untyped store error the
claim rules out. -/
theorem C6_counterexample :
    (createArtista dbSample "ana" "Rock").1 =
      .error ⟨"Failed to create artista: " ++ uniqueViolationMsg, none⟩ := by
  rfl

/-- C6 as amended: `createArtista` performs no duplicate pre-check and no
typed remap; when the supplied name is already taken case-insensitively, the
store's unique-constraint rejection (modelled from the spec) is wrapped into
an untyped generic error — message prefixed `Failed to create artista:`,
`code` absent — and no artist row is inserted.  The typed remap of `23505`
exists only in `updateArtista`. -/
theorem C6_create_artista_untyped (db : Db) (nombre genero : String)
    (hup : db.up = true) (hdup : artistaNameTaken db nombre = true) :
    createArtista db nombre genero =
      (.error ⟨"Failed to create artista: " ++ uniqueViolationMsg, none⟩, db,
        [.acquire, .query, .release]) := by
  simp [createArtista, hup, hdup]

/-- C6 witness: creating `("ana", "Rock")` against `dbSample`. -/
theorem C6_witness :
    createArtista dbSample "ana" "Rock" =
      (.error ⟨"Failed to create artista: " ++ uniqueViolationMsg, none⟩, dbSample,
        [.acquire, .query, .release]) :=
  C6_create_artista_untyped dbSample "ana" "Rock" rfl (by decide)

/-- C7 counterexample: a zero-field `updateArtista` call returns the
`No update fields provided` error, yet its trace is `[acquire, release]` —
a pool connection is acquired before the validation error is produced,
contradicting the claim that no connection is acquired first. -/
theorem C7_counterexample :
    (updateArtista dbEmpty 7 .undefined .undefined).1 = .error noFieldsErr ∧
    (updateArtista dbEmpty 7 .undefined .undefined).2.2 = [.acquire, .release] :=
  ⟨rfl, rfl⟩

/-- C7 as amended: for every zero-field update call, the `No update fields
provided` error is produced before any query is executed — no `query` event
precedes it — but only after a connection has been acquired (and it is then
released): the `acquire` event is in the trace. -/
theorem C7_validation_before_queries (db : Db) (hup : db.up = true) :
    (∀ idArtista nombre genero, nombre.isString = false → genero.isString = false →
      (updateArtista db idArtista nombre genero).1 = .error noFieldsErr ∧
      Ev.query ∉ (updateArtista db idArtista nombre genero).2.2 ∧
      Ev.acquire ∈ (updateArtista db idArtista nombre genero).2.2) ∧
    (∀ idAlbum titulo anio art, titulo.isString = false →
      anio.isIntegerNum = false → art.isIntegerNum = false →
      (updateAlbum db idAlbum titulo anio art).1 = .error noFieldsErr ∧
      Ev.query ∉ (updateAlbum db idAlbum titulo anio art).2.2 ∧
      Ev.acquire ∈ (updateAlbum db idAlbum titulo anio art).2.2) := by
  constructor
  · intro idArtista nombre genero hn hg
    rw [updateArtista_noFields db idArtista nombre genero hup hn hg]
    exact ⟨rfl, by simp, by simp⟩
  · intro idAlbum titulo anio art ht ha hi
    rw [updateAlbum_noFields db idAlbum titulo anio art hup ht ha hi]
    exact ⟨rfl, by simp, by simp⟩

/-- C7 witness: a zero-field update of artist 7 and album 7 in `dbSample`. -/
theorem C7_witness :
    ((updateArtista dbSample 7 .nullv .undefined).1 = .error noFieldsErr ∧
      Ev.query ∉ (updateArtista dbSample 7 .nullv .undefined).2.2 ∧
      Ev.acquire ∈ (updateArtista dbSample 7 .nullv .undefined).2.2) ∧
    ((updateAlbum dbSample 7 .nullv .float .undefined).1 = .error noFieldsErr ∧
      Ev.query ∉ (updateAlbum dbSample 7 .nullv .float .undefined).2.2 ∧
      Ev.acquire ∈ (updateAlbum dbSample 7 .nullv .float .undefined).2.2) :=
  ⟨(C7_validation_before_queries dbSample rfl).1 7 .nullv .undefined
      (by decide) (by decide),
   (C7_validation_before_queries dbSample rfl).2 7 .nullv .float .undefined
      (by decide) (by decide) (by decide)⟩

theorem traceOk_testDatabaseConnection (db : Db) :
    traceOk (testDatabaseConnection db).2.2 = true := by
  unfold testDatabaseConnection
  split <;> rfl

theorem traceOk_getColeccionMusical (db : Db) :
    traceOk (getColeccionMusical db).2.2 = true := by
  unfold getColeccionMusical
  split <;> rfl

theorem traceOk_getArtistas (db : Db) : traceOk (getArtistas db).2.2 = true := by
  unfold getArtistas
  split <;> rfl

theorem traceOk_findArtistaPorNombre (db : Db) (nombre : String) :
    traceOk (findArtistaPorNombre db nombre).2.2 = true := by
  unfold findArtistaPorNombre
  split <;> rfl

theorem traceOk_getAlbumes (db : Db) : traceOk (getAlbumes db).2.2 = true := by
  unfold getAlbumes
  split <;> rfl

theorem traceOk_getAlbumesPorArtista (db : Db) (idArtista : Int) :
    traceOk (getAlbumesPorArtista db idArtista).2.2 = true := by
  unfold getAlbumesPorArtista
  split <;> rfl

theorem traceOk_createArtista (db : Db) (nombre genero : String) :
    traceOk (createArtista db nombre genero).2.2 = true := by
  unfold createArtista
  repeat' split
  all_goals rfl

theorem traceOk_updateArtista (db : Db) (idArtista : Int) (nombre genero : JsVal) :
    traceOk (updateArtista db idArtista nombre genero).2.2 = true := by
  simp only [updateArtista]
  repeat' split
  all_goals rfl

theorem traceOk_createAlbum (db : Db) (titulo : String) (anio idA : Int) :
    traceOk (createAlbum db titulo anio idA).2.2 = true := by
  unfold createAlbum
  repeat' split
  all_goals rfl

theorem traceOk_updateAlbumRun (db : Db) (idAlbum : Int) (fields : List AlbumField)
    (b : Bool) : traceOk (updateAlbumRun db idAlbum fields b).2.2 = true := by
  unfold updateAlbumRun
  cases b <;> repeat' split
  all_goals rfl

theorem traceOk_updateAlbum (db : Db) (idAlbum : Int) (titulo anio art : JsVal) :
    traceOk (updateAlbum db idAlbum titulo anio art).2.2 = true := by
  unfold updateAlbum
  repeat' split
  all_goals first
    | rfl
    | apply traceOk_updateAlbumRun

/-- C8: every repository operation's connection trace is well scoped: either
no connection was acquired (the pool refused one), or exactly one `acquire`
comes first, only queries run on the connection, and exactly one `release`
ends the trace before the operation returns — on every path, success or
failure, for all ten exported operations. -/
theorem C8_connection_discipline (db : Db) (nombre genero titulo : String)
    (anio idA idArtista idAlbum : Int) (v1 v2 v3 v4 v5 : JsVal) :
    traceOk (testDatabaseConnection db).2.2 = true ∧
    traceOk (getColeccionMusical db).2.2 = true ∧
    traceOk (getArtistas db).2.2 = true ∧
    traceOk (findArtistaPorNombre db nombre).2.2 = true ∧
    traceOk (getAlbumes db).2.2 = true ∧
    traceOk (getAlbumesPorArtista db idA).2.2 = true ∧
    traceOk (createArtista db nombre genero).2.2 = true ∧
    traceOk (updateArtista db idArtista v1 v2).2.2 = true ∧
    traceOk (createAlbum db titulo anio idA).2.2 = true ∧
    traceOk (updateAlbum db idAlbum v3 v4 v5).2.2 = true :=
  ⟨traceOk_testDatabaseConnection db, traceOk_getColeccionMusical db,
   traceOk_getArtistas db, traceOk_findArtistaPorNombre db nombre,
   traceOk_getAlbumes db, traceOk_getAlbumesPorArtista db idA,
   traceOk_createArtista db nombre genero,
   traceOk_updateArtista db idArtista v1 v2,
   traceOk_createAlbum db titulo anio idA,
   traceOk_updateAlbum db idAlbum v3 v4 v5⟩
